import Mathlib

/-!
Verification development for the Smart Alarm repository
(src/smart_alarm.py and src/smart_alarm_app.py).

Modelling conventions:
* Timestamps are `Int` epoch seconds.  The reference timezone `TZ`
  (`ZoneInfo("Europe/Athens")` in the source) is modelled, following the
  spec's "fixed reference timezone", as a fixed UTC offset in minutes that
  is threaded through as a parameter; `datetime`/`timedelta` arithmetic on
  such fixed-offset aware datetimes is exact second arithmetic on the
  epoch value.
* Python `int` is `Int`; `x // n` and `int(x / n)` for the non-negative
  values arising in this code are `Int.ediv` (floor division, divisor
  positive).
* I/O collaborators (the Google Distance Matrix call in
  `get_eta_seconds`, `time.time()`, `datetime.now(TZ)`, threading events,
  `afplay` subprocesses) are modelled as explicit environment records
  passed to the embedded functions; a fallible collaborator returns
  `Except`/`Option`.
-/

namespace SmartAlarm

/-! ## Calendar model (for `datetime.fromisoformat`) -/

/-- Gregorian leap-year rule, as used by `datetime`. -/
def isLeap (y : Nat) : Bool :=
  y % 4 == 0 && (y % 100 != 0 || y % 400 == 0)

/-- Number of days in month `m` of year `y` (months are 1-based). -/
def daysInMonth (y m : Nat) : Nat :=
  if m == 2 then (if isLeap y then 29 else 28)
  else if m == 4 || m == 6 || m == 9 || m == 11 then 30
  else 31

/-- Days from the civil epoch 1970-01-01 to year-month-day `y-m-d`
(standard civil-calendar formula; `y ≥ 1`, `1 ≤ m ≤ 12`). -/
def epochDays (y m d : Nat) : Int :=
  let yShift : Nat := if m ≤ 2 then y - 1 else y
  let era : Nat := yShift / 400
  let yoe : Nat := yShift - era * 400
  let mp : Nat := if m > 2 then m - 3 else m + 9
  let doy : Nat := (153 * mp + 2) / 5 + d - 1
  let doe : Nat := yoe * 365 + yoe / 4 - yoe / 100 + doy
  (era : Int) * 146097 + (doe : Int) - 719468

/-- Epoch seconds of the instant with civil date `y-m-d`, wall-clock time
`hh:mm:ss`, at UTC offset `offMin` minutes. -/
def civilToEpoch (y m d hh mm ss : Nat) (offMin : Int) : Int :=
  epochDays y m d * 86400 + (hh : Int) * 3600 + (mm : Int) * 60 + (ss : Int)
    - offMin * 60

/-! ## Model of `datetime.fromisoformat` and `_parse_arrival`

The parser accepts the canonical subset
`YYYY-MM-DDTHH:MM:SS` optionally followed by `+HH:MM` or `-HH:MM`,
with full range validation, a subset of what `fromisoformat` accepts. -/

/-- Digit value of a character, `none` if not a decimal digit. -/
def digitVal (c : Char) : Option Nat :=
  if c.isDigit then some (c.toNat - 48) else none

/-- Two-digit field. -/
def read2 (a b : Char) : Option Nat := do
  let x ← digitVal a
  let y ← digitVal b
  pure (10 * x + y)

/-- Four-digit field. -/
def read4 (a b c d : Char) : Option Nat := do
  let x ← read2 a b
  let y ← read2 c d
  pure (100 * x + y)

/-- Parsed fields of an ISO timestamp: date, time, optional offset in
minutes. -/
structure IsoFields where
  year : Nat
  month : Nat
  day : Nat
  hour : Nat
  minute : Nat
  second : Nat
  offMin : Option Int
  deriving Repr, DecidableEq

/-- Range-validate the parsed fields, as `fromisoformat` does. -/
def validFields (f : IsoFields) : Bool :=
  1 ≤ f.year && f.year ≤ 9999 && 1 ≤ f.month && f.month ≤ 12 &&
  1 ≤ f.day && f.day ≤ daysInMonth f.year f.month &&
  f.hour ≤ 23 && f.minute ≤ 59 && f.second ≤ 59

/-- Parse the character list of an ISO timestamp. -/
def parseIsoChars : List Char → Option IsoFields
  | [y1, y2, y3, y4, '-', m1, m2, '-', d1, d2, 'T',
     h1, h2, ':', n1, n2, ':', s1, s2] => do
    let y ← read4 y1 y2 y3 y4
    let mo ← read2 m1 m2
    let da ← read2 d1 d2
    let hh ← read2 h1 h2
    let mi ← read2 n1 n2
    let ss ← read2 s1 s2
    let f : IsoFields :=
      { year := y, month := mo, day := da, hour := hh, minute := mi,
        second := ss, offMin := none }
    if validFields f then some f else none
  | [y1, y2, y3, y4, '-', m1, m2, '-', d1, d2, 'T',
     h1, h2, ':', n1, n2, ':', s1, s2, sgn, o1, o2, ':', p1, p2] => do
    let y ← read4 y1 y2 y3 y4
    let mo ← read2 m1 m2
    let da ← read2 d1 d2
    let hh ← read2 h1 h2
    let mi ← read2 n1 n2
    let ss ← read2 s1 s2
    let oh ← read2 o1 o2
    let om ← read2 p1 p2
    let sign : Int ← match sgn with
      | '+' => some 1
      | '-' => some (-1)
      | _ => none
    if oh ≤ 23 && om ≤ 59 then
      let f : IsoFields :=
        { year := y, month := mo, day := da, hour := hh, minute := mi,
          second := ss, offMin := some (sign * ((oh : Int) * 60 + om)) }
      if validFields f then some f else none
    else none
  | _ => none

/-- Model of `_parse_arrival` (src/smart_alarm.py:43-46): parse the ISO
string; a naive timestamp is interpreted at the reference offset
`tzOffMin`, an aware one is converted to the reference zone, which
preserves the instant.  Returns the epoch seconds of the instant. -/
def parseArrival (tzOffMin : Int) (s : String) : Option Int := do
  let f ← parseIsoChars s.toList
  let off := f.offMin.getD tzOffMin
  pure (civilToEpoch f.year f.month f.day f.hour f.minute f.second off)

/-! ## `compute_wake_time` (src/smart_alarm.py:48-62) -/

/-- The result dictionary of `compute_wake_time`. -/
structure Snapshot where
  now : Int
  arrival : Int
  eta_seconds : Int
  depart_latest : Int
  wake_time : Int
  wake_now : Bool
  deriving Repr, DecidableEq

/-- Ambient environment of `compute_wake_time`: the clock
(`datetime.now(TZ)`), the network ETA collaborator (`get_eta_seconds`,
which performs an HTTP request), and the reference-zone offset.  The
source reaches these effects directly; the embedding threads them
explicitly. -/
structure EtaEnv where
  eta : String → String → Except String Int
  now : Int
  tzOffMin : Int

/-- Embedding of `compute_wake_time` (src/smart_alarm.py:48-62).  Note
that the source itself samples the clock and invokes `get_eta_seconds`
on `origin`/`destination`; the ETA sample is not a parameter. -/
def compute_wake_time (env : EtaEnv) (arrival_iso : String)
    (prep_min buffer_min : Int) (origin destination : String) :
    Except String Snapshot :=
  let now := env.now
  match parseArrival env.tzOffMin arrival_iso with
  | none => .error "invalid isoformat string"
  | some arrival =>
    match env.eta origin destination with
    | .error e => .error e
    | .ok eta_s =>
      let depart_latest := arrival - eta_s - buffer_min * 60
      let wake_time := depart_latest - prep_min * 60
      .ok { now := now, arrival := arrival, eta_seconds := eta_s,
            depart_latest := depart_latest, wake_time := wake_time,
            wake_now := decide (now ≥ wake_time) }

/-- Instrumentation of `compute_wake_time`: how many times one call
invokes the ETA collaborator `get_eta_seconds` (line 52 runs once, after
`_parse_arrival` succeeds). -/
def computeEtaCalls (env : EtaEnv) (arrival_iso : String) : Nat :=
  match parseArrival env.tzOffMin arrival_iso with
  | none => 0
  | some _ => 1

/-! ## The polling scheduler

The sleep computation appearing identically in `run_alarm`
(src/smart_alarm.py:154-157) and `_run_worker`
(src/smart_alarm_app.py:240-243). -/

/-- Embedding of the sleep computation: `remaining` seconds until wake;
`int(remaining / 4)` for the non-negative `remaining` arising in the
source is floor division. -/
def nextSleep (remaining coarse_poll fine_poll fine_window_min : Int) : Int :=
  if remaining ≤ fine_window_min * 60 then
    min fine_poll (max 15 (Int.ediv remaining 4))
  else
    max 15 coarse_poll

/-! ## Program state and the primary-button dispatch
(src/smart_alarm_app.py) -/

/-- The value of `state_var` (src/smart_alarm_app.py:20): Idle, Running
or Ringing. -/
inductive ProgState where
  | Idle
  | Running
  | Ringing
  deriving Repr, DecidableEq

/-- Abstract user commands; in the GUI each is reachable through the
single primary button, whose meaning depends on the current state. -/
inductive Cmd where
  | start
  | stopProgram
  | stopAlarm
  deriving Repr, DecidableEq

/-- The dispatch of `_on_primary_button` (src/smart_alarm_app.py:124-131):
which handler a button press invokes in each state. -/
def buttonAction : ProgState → Cmd
  | .Idle => .start
  | .Running => .stopProgram
  | .Ringing => .stopAlarm

/-- State effect of issuing command `c` in state `s`: the handler for `c`
runs only when the dispatch selects it in `s`; otherwise nothing happens.
`startOk` records whether `_start_program`'s input validation passes (on
failure it returns before `_set_state`, so the state is unchanged);
`_stop_program` (line 173) and `_stop_alarm` (line 191) set Idle. -/
def handleCommand (startOk : Bool) (c : Cmd) (s : ProgState) : ProgState :=
  if buttonAction s ≠ c then s
  else
    match c with
    | .start => if startOk then .Running else s
    | .stopProgram => .Idle
    | .stopAlarm => .Idle

/-! ## `_start_program` (src/smart_alarm_app.py:138-169) -/

/-- Whitespace characters removed by Python's `str.strip()` (the ones
arising in this model). -/
def isPySpace (c : Char) : Bool :=
  c = ' ' || c = '\t' || c = '\n' || c = '\r'

/-- Model of Python `str.strip()`: drop leading and trailing
whitespace. -/
def pyStrip (s : String) : String :=
  ⟨((s.toList.dropWhile isPySpace).reverse.dropWhile isPySpace).reverse⟩

/-- Digits-only numeral value. -/
def natOfDigits (cs : List Char) : Option Nat :=
  match cs with
  | [] => none
  | _ => cs.foldl
      (fun acc c => do
        let a ← acc
        let d ← digitVal c
        pure (10 * a + d))
      (some 0)

/-- Model of Python `int(s)`: surrounding whitespace stripped, optional
sign, at least one digit. -/
def parsePyInt (s : String) : Option Int :=
  match (pyStrip s).toList with
  | '-' :: rest => (natOfDigits rest).map (fun n => -(n : Int))
  | '+' :: rest => (natOfDigits rest).map (fun n => (n : Int))
  | rest => (natOfDigits rest).map (fun n => (n : Int))

/-- The raw text-field contents read by `_start_program`. -/
structure AppConfig where
  googleKey : String
  origin : String
  destination : String
  arrivalIso : String
  prepMin : String
  bufferMin : String
  soundPath : String
  coarsePoll : String
  finePoll : String
  fineWindow : String
  deriving Repr, DecidableEq

/-- Outcome of `_start_program`: the `except` branch shows the
"Invalid input" error box, the emptiness check shows "Missing input",
otherwise the worker thread is started. -/
inductive StartOutcome where
  | invalidInput
  | missingInput
  | started
  deriving Repr, DecidableEq

/-- Observable result of `_start_program` called from state Idle. -/
structure StartOut where
  outcome : StartOutcome
  state : ProgState
  workerStarted : Bool
  deriving Repr, DecidableEq

/-- Embedding of `_start_program` (src/smart_alarm_app.py:138-169).  The
try-block converts the five numeric fields with `int` (any failure is
caught and surfaced synchronously as the "Invalid input" box, and the
method returns with no worker started); then empty origin, destination
or arrival give the "Missing input" box; otherwise the events are
cleared, the worker thread starts and the state becomes Running.  Note
the arrival string is only stripped here — it is never parsed before the
worker starts. -/
def startProgram (cfg : AppConfig) : StartOut :=
  match parsePyInt cfg.prepMin, parsePyInt cfg.bufferMin,
        parsePyInt cfg.coarsePoll, parsePyInt cfg.finePoll,
        parsePyInt cfg.fineWindow with
  | some _, some _, some _, some _, some _ =>
    if pyStrip cfg.origin = "" ∨ pyStrip cfg.destination = "" ∨
        pyStrip cfg.arrivalIso = "" then
      { outcome := .missingInput, state := .Idle, workerStarted := false }
    else
      { outcome := .started, state := .Running, workerStarted := true }
  | _, _, _, _, _ =>
    { outcome := .invalidInput, state := .Idle, workerStarted := false }

/-! ## The worker loop `_run_worker` (src/smart_alarm_app.py:194-249) -/

/-- Parameters of one run, as passed to `_run_worker` / `run_alarm`
(after `_start_program` parsed them). -/
structure WorkerCfg where
  origin : String
  destination : String
  arrival_iso : String
  prep_min : Int
  buffer_min : Int
  sound_path : Option String
  coarse_poll_s : Int
  fine_poll_s : Int
  fine_window_min : Int
  tzOffMin : Int

/-- Effects observed by one iteration of the worker loop: the
stop-program event, the clock samples, and the ETA collaborator's
outcome for this poll. -/
structure WorkerEnv where
  stopProgram : Bool
  t0 : Int
  eta : Except String Int
  nowCompute : Int
  nowCheck : Int
  t1 : Int

/-- Log lines the worker emits through `self.log`. -/
inductive LogEvent where
  | apiError (msg : String)
  | etaLine (etaMin depart wake : Int)
  | triggering
  | nextPollIn (s : Int)
  deriving Repr, DecidableEq

/-- How an iteration leaves the loop control. -/
inductive StepKind where
  | continueLoop
  | ringExit
  | stopExit
  deriving Repr, DecidableEq

/-- Loop-carried worker state: `next_poll_at` and the GUI `state_var`. -/
structure WorkerState where
  nextPollAt : Int
  progState : ProgState
  deriving Repr, DecidableEq

/-- Observable result of one worker-loop iteration. -/
structure StepOut where
  st : WorkerState
  logs : List LogEvent
  kind : StepKind
  deriving Repr, DecidableEq

/-- The `EtaEnv` a worker iteration hands to `compute_wake_time`. -/
def etaEnvOf (cfg : WorkerCfg) (env : WorkerEnv) : EtaEnv :=
  { eta := fun _ _ => env.eta, now := env.nowCompute,
    tzOffMin := cfg.tzOffMin }

/-- Embedding of one iteration of `_run_worker`'s while-loop
(src/smart_alarm_app.py:206-245) plus the finally-block reset
(lines 246-249) on stop-exit.  On a `compute_wake_time` exception the
error is logged, `next_poll_at` becomes `time.time() + max(15,
coarse_poll_s)` and the loop continues; on success the ETA line is
logged unconditionally, then either the alarm fires (state Ringing, loop
exits) or the next poll is scheduled by the fine/coarse sleep rule. -/
def workerStep (cfg : WorkerCfg) (env : WorkerEnv) (w : WorkerState) :
    StepOut :=
  if env.stopProgram then
    { st := { w with progState :=
        if w.progState = .Ringing then .Ringing else .Idle },
      logs := [], kind := .stopExit }
  else if env.t0 < w.nextPollAt then
    { st := w, logs := [], kind := .continueLoop }
  else
    match compute_wake_time (etaEnvOf cfg env) cfg.arrival_iso
        cfg.prep_min cfg.buffer_min cfg.origin cfg.destination with
    | .error e =>
      { st := { w with nextPollAt := env.t1 + max 15 cfg.coarse_poll_s },
        logs := [.apiError e], kind := .continueLoop }
    | .ok info =>
      let etaMin := max 0 (Int.ediv info.eta_seconds 60)
      let etaLog := LogEvent.etaLine etaMin info.depart_latest info.wake_time
      if env.nowCheck ≥ info.wake_time then
        { st := { w with progState := .Ringing },
          logs := [etaLog, .triggering], kind := .ringExit }
      else
        let remaining := info.wake_time - env.nowCheck
        let sleep_s := nextSleep remaining cfg.coarse_poll_s
          cfg.fine_poll_s cfg.fine_window_min
        { st := { w with nextPollAt := env.t1 + sleep_s },
          logs := [etaLog, .nextPollIn sleep_s], kind := .continueLoop }

/-! ## One iteration of `run_alarm`'s loop (src/smart_alarm.py:137-158) -/

/-- Effects observed by one iteration of `run_alarm`'s loop. -/
structure CoreEnv where
  eta : Except String Int
  nowCompute : Int
  nowLoop : Int

/-- What one `run_alarm` iteration does after `compute_wake_time`
succeeds. -/
inductive CoreAction where
  | ring
  | sleepFor (s : Int)
  deriving Repr, DecidableEq

/-- Observable result of one `run_alarm` iteration. -/
structure CoreIterOut where
  logged : Bool
  lastWakeIso : Option Int
  wake : Int
  action : CoreAction
  deriving Repr, DecidableEq

/-- Embedding of one iteration of `run_alarm`'s while-loop
(src/smart_alarm.py:137-158).  `last_wake_iso` starts as `None`; the
status line is printed only when the freshly computed wake time's ISO
rendering differs from `last_wake_iso`, and only then is `last_wake_iso`
updated (in the fixed-offset model two wake instants have equal
renderings iff they are equal).  `compute_wake_time` is not guarded by
any try, so its exception propagates out of `run_alarm`. -/
def runAlarmIter (cfg : WorkerCfg) (env : CoreEnv)
    (lastWakeIso : Option Int) : Except String CoreIterOut :=
  match compute_wake_time
      { eta := fun _ _ => env.eta, now := env.nowCompute,
        tzOffMin := cfg.tzOffMin }
      cfg.arrival_iso cfg.prep_min cfg.buffer_min cfg.origin
      cfg.destination with
  | .error e => .error e
  | .ok info =>
    let wake := info.wake_time
    let logged : Bool := decide (some wake ≠ lastWakeIso)
    let last2 := if logged then some wake else lastWakeIso
    if env.nowLoop ≥ wake then
      .ok { logged := logged, lastWakeIso := last2, wake := wake,
            action := .ring }
    else
      .ok { logged := logged, lastWakeIso := last2, wake := wake,
            action := .sleepFor (nextSleep (wake - env.nowLoop)
              cfg.coarse_poll_s cfg.fine_poll_s cfg.fine_window_min) }

/-! ## The alarm episode `_ring_alarm_gui` (src/smart_alarm_app.py:251-285)

Latch observations are numbered by a global counter `t`: the for-loop's
top check consumes one observation, and each inner 50 ms poll consumes
one.  A playback is described by how many inner polls it stays alive;
`afplay` failures are the two except-branches. -/

/-- Behaviour of the `subprocess.Popen(["afplay", ...])` call and the
resulting playback for one repetition. -/
inductive PlayStart where
  | ok (polls : Nat)
  | notFound
  | failed
  deriving Repr, DecidableEq

/-- Environment of one alarm episode: whether the sound path exists, the
stop-alarm event's value at each observation, and each repetition's
playback behaviour. -/
structure RingEnv where
  soundValid : Bool
  latch : Nat → Bool
  plays : Nat → PlayStart

/-- The inner while-loop of one repetition: starting at observation `t`
with `d` polls of playback left, return the observation counter after
the loop and whether the playback was terminated by the latch. -/
def playPoll (latch : Nat → Bool) : Nat → Nat → Nat × Bool
  | 0, t => (t, false)
  | d + 1, t => if latch t then (t + 1, true) else playPoll latch d (t + 1)

/-- The for-loop of `_ring_alarm_gui` (lines 258-282): with `k`
repetitions left, current repetition index `i` and observation counter
`t`, return how many playbacks are started.  The top-of-loop latch check
breaks out; `FileNotFoundError` and other exceptions break before a
playback starts. -/
def ringLoop (env : RingEnv) : Nat → Nat → Nat → Nat
  | 0, _, _ => 0
  | k + 1, i, t =>
    if env.latch t then 0
    else
      match env.plays i with
      | .notFound => 0
      | .failed => 0
      | .ok d =>
        let p := playPoll env.latch d (t + 1)
        1 + ringLoop env k (i + 1) p.1

/-- Observable result of `_ring_alarm_gui`: playbacks started, the final
state set through `self.after`, and whether line 283 reset
`_current_alarm_proc` to `None`. -/
structure RingOut where
  playbacks : Nat
  finalState : ProgState
  procCleared : Bool
  deriving Repr, DecidableEq

/-- Embedding of `_ring_alarm_gui` (src/smart_alarm_app.py:251-285).
With no valid sound the episode logs, sets Idle and returns at once
(line 255 returns before the clearing at line 283); otherwise the
for-loop runs with `repeats = 10`, then `_current_alarm_proc` is cleared
and the state is set to Idle. -/
def ring_alarm_gui (env : RingEnv) : RingOut :=
  if env.soundValid then
    { playbacks := ringLoop env 10 0 0, finalState := .Idle,
      procCleared := true }
  else
    { playbacks := 0, finalState := .Idle, procCleared := false }

/-- A latch, once observed set, stays set. -/
def LatchMono (latch : Nat → Bool) : Prop :=
  ∀ s u, s ≤ u → latch s = true → latch u = true

/-! ## Concrete environments used in scenario checks -/

/-- Environment for spec Scenario 1: the provider answers 3600 seconds;
the reference offset is +03:00 (180 minutes). -/
def envScenario : EtaEnv :=
  { eta := fun _ _ => .ok 3600, now := 0, tzOffMin := 180 }

/-- Environment whose provider answers 3600 seconds. -/
def envProviderA : EtaEnv :=
  { eta := fun _ _ => .ok 3600, now := 0, tzOffMin := 180 }

/-- Environment identical to `envProviderA` except that the ETA
collaborator answers 7200 seconds. -/
def envProviderB : EtaEnv :=
  { eta := fun _ _ => .ok 7200, now := 0, tzOffMin := 180 }

/-- A configuration whose arrival field is not a parseable timestamp but
whose numeric fields are all valid. -/
def cfgBadArrival : AppConfig :=
  { googleKey := "", origin := "Syntagma Square, Athens",
    destination := "Athens International Airport",
    arrivalIso := "tomorrow-ish", prepMin := "15", bufferMin := "60",
    soundPath := "wakey-wakey-eggs.mp3", coarsePoll := "180",
    finePoll := "60", fineWindow := "30" }

/-- Run parameters used for the consecutive-poll logging check. -/
def cfgLogDemo : WorkerCfg :=
  { origin := "A", destination := "B",
    arrival_iso := "2025-08-09T15:30:00+03:00", prep_min := 15,
    buffer_min := 60, sound_path := none, coarse_poll_s := 180,
    fine_poll_s := 60, fine_window_min := 30, tzOffMin := 180 }

/-- First worker iteration: poll due, provider answers 3600, long before
the wake time. -/
def envLog1 : WorkerEnv :=
  { stopProgram := false, t0 := 1754000000, eta := .ok 3600,
    nowCompute := 1754000000, nowCheck := 1754000000, t1 := 1754000000 }

/-- Second worker iteration, 180 seconds later, with the identical
provider answer, hence an unchanged wake time. -/
def envLog2 : WorkerEnv :=
  { stopProgram := false, t0 := 1754000180, eta := .ok 3600,
    nowCompute := 1754000180, nowCheck := 1754000180, t1 := 1754000180 }

/-- Alarm-episode environment whose stop latch becomes set at the third
observation and whose playbacks each last five polls. -/
def envRing : RingEnv :=
  { soundValid := true, latch := fun n => decide (3 ≤ n),
    plays := fun _ => .ok 5 }

/-- Alarm-episode environment whose stop latch is set from the very
first observation. -/
def envRingPre : RingEnv :=
  { soundValid := true, latch := fun _ => true,
    plays := fun _ => .ok 5 }

/-- A configuration with an unparseable prep-minutes field. -/
def cfgBadNumeric : AppConfig :=
  { googleKey := "", origin := "A", destination := "B",
    arrivalIso := "2025-08-09T15:30:00+03:00", prepMin := "abc",
    bufferMin := "60", soundPath := "", coarsePoll := "180",
    finePoll := "60", fineWindow := "30" }

/-- Run parameters with an unparseable arrival deadline. -/
def wcfgBadArrival : WorkerCfg :=
  { cfgLogDemo with arrival_iso := "tomorrow-ish" }

/-- A worker iteration whose ETA fetch fails. -/
def envBoom : WorkerEnv :=
  { envLog1 with eta := .error "boom" }

/-- Initial loop-carried worker state after `_start_program`:
`next_poll_at = 0`, state Running. -/
def wInit : WorkerState :=
  { nextPollAt := 0, progState := .Running }

/-- The snapshot computed in `envLog1`. -/
def snapLog1 : Snapshot :=
  { now := 1754000000, arrival := 1754742600, eta_seconds := 3600,
    depart_latest := 1754735400, wake_time := 1754734500,
    wake_now := false }

/-- The `run_alarm` iteration output under `envLog1`'s clock and
provider answer, starting from `last_wake_iso = None`. -/
def outLog1 : CoreIterOut :=
  { logged := true, lastWakeIso := some 1754734500,
    wake := 1754734500, action := .sleepFor 180 }

/-- The core-loop environment matching `envLog1`. -/
def envCoreLog1 : CoreEnv :=
  { eta := .ok 3600, nowCompute := 1754000000, nowLoop := 1754000000 }

/-! ## Theorems -/

/-- C1: for every parseable arrival deadline and non-negative
prep/buffer/eta, the snapshot's fields are exactly
`depart_latest = arrival − eta − buffer·60`,
`wake_time = arrival − eta − buffer·60 − prep·60`, and `wake_now` is
true iff `now ≥ wake_time`, with equality giving true; Scenario 1
(deadline 2025-08-09T15:30:00+03:00, eta 3600, buffer 60, prep 15)
yields depart_latest 13:30:00+03:00 and wake_time 13:15:00+03:00. -/
theorem C1_wake_time_arithmetic (env : EtaEnv) (s : String) (a : Int)
    (prep buffer eta : Int) (origin destination : String)
    (snap : Snapshot)
    (hparse : parseArrival env.tzOffMin s = some a)
    (heta : env.eta origin destination = .ok eta)
    (hprep : 0 ≤ prep) (hbuffer : 0 ≤ buffer) (heta0 : 0 ≤ eta)
    (hrun : compute_wake_time env s prep buffer origin destination =
      .ok snap) :
    snap.depart_latest = a - eta - buffer * 60 ∧
    snap.wake_time = a - eta - buffer * 60 - prep * 60 ∧
    (snap.wake_now = true ↔ env.now ≥ snap.wake_time) ∧
    (env.now = snap.wake_time → snap.wake_now = true) ∧
    (compute_wake_time envScenario "2025-08-09T15:30:00+03:00" 15 60
        "o" "d").toOption.map
      (fun sn => (sn.depart_latest, sn.wake_time)) =
      some (1754735400, 1754734500) ∧
    parseArrival 180 "2025-08-09T13:30:00+03:00" = some 1754735400 ∧
    parseArrival 180 "2025-08-09T13:15:00+03:00" = some 1754734500 := by
  have hrun2 : compute_wake_time env s prep buffer origin destination =
      .ok { now := env.now, arrival := a, eta_seconds := eta,
            depart_latest := a - eta - buffer * 60,
            wake_time := a - eta - buffer * 60 - prep * 60,
            wake_now :=
              decide (env.now ≥ a - eta - buffer * 60 - prep * 60) } := by
    unfold compute_wake_time
    rw [hparse, heta]
  rw [hrun] at hrun2
  injection hrun2 with h
  subst h
  refine ⟨rfl, rfl, by simp, by intro h2; simp [h2], by decide, by decide,
    by decide⟩

/-- C1 witness: Scenario 1 instantiation of the theorem. -/
theorem C1_wake_time_arithmetic_witness :
    ({ now := 0, arrival := 1754742600, eta_seconds := 3600,
       depart_latest := 1754735400, wake_time := 1754734500,
       wake_now := false } : Snapshot).depart_latest =
        1754742600 - 3600 - 60 * 60 ∧
    ({ now := 0, arrival := 1754742600, eta_seconds := 3600,
       depart_latest := 1754735400, wake_time := 1754734500,
       wake_now := false } : Snapshot).wake_time =
        1754742600 - 3600 - 60 * 60 - 15 * 60 ∧
    (({ now := 0, arrival := 1754742600, eta_seconds := 3600,
        depart_latest := 1754735400, wake_time := 1754734500,
        wake_now := false } : Snapshot).wake_now = true ↔
      envScenario.now ≥
        ({ now := 0, arrival := 1754742600, eta_seconds := 3600,
           depart_latest := 1754735400, wake_time := 1754734500,
           wake_now := false } : Snapshot).wake_time) ∧
    (envScenario.now =
        ({ now := 0, arrival := 1754742600, eta_seconds := 3600,
           depart_latest := 1754735400, wake_time := 1754734500,
           wake_now := false } : Snapshot).wake_time →
      ({ now := 0, arrival := 1754742600, eta_seconds := 3600,
         depart_latest := 1754735400, wake_time := 1754734500,
         wake_now := false } : Snapshot).wake_now = true) ∧
    (compute_wake_time envScenario "2025-08-09T15:30:00+03:00" 15 60
        "o" "d").toOption.map
      (fun sn => (sn.depart_latest, sn.wake_time)) =
      some (1754735400, 1754734500) ∧
    parseArrival 180 "2025-08-09T13:30:00+03:00" = some 1754735400 ∧
    parseArrival 180 "2025-08-09T13:15:00+03:00" = some 1754734500 :=
  C1_wake_time_arithmetic envScenario "2025-08-09T15:30:00+03:00"
    1754742600 15 60 3600 "o" "d"
    { now := 0, arrival := 1754742600, eta_seconds := 3600,
      depart_latest := 1754735400, wake_time := 1754734500,
      wake_now := false }
    (by decide) rfl (by decide) (by decide) (by decide) rfl

/-- C2: within the fine window the scheduler returns
`min(fine_poll, max(15, ⌊remaining/4⌋))`, outside it `max(15,
coarse_poll)` (independent of fine_poll); `remaining=600,
fine_window=30, fine_poll=60 ↦ 60` and `remaining=40 ↦ 15`. -/
theorem C2_next_sleep_formula (r c f w f2 : Int)
    (hr : 0 ≤ r) (hc : 0 ≤ c) (hf : 0 ≤ f) (hw : 0 ≤ w) (hf2 : 0 ≤ f2) :
    (r ≤ w * 60 →
      nextSleep r c f w = min f (max 15 (Int.ediv r 4))) ∧
    (w * 60 < r →
      nextSleep r c f w = max 15 c ∧
      nextSleep r c f w = nextSleep r c f2 w) ∧
    nextSleep 600 c 60 30 = 60 ∧
    nextSleep 40 c 60 30 = 15 := by
  have e1 : Int.ediv (600 : Int) 4 = 150 := by decide
  have e2 : Int.ediv (40 : Int) 4 = 10 := by decide
  refine ⟨fun h => by simp [nextSleep, h], fun h => ?_, ?_, ?_⟩
  · have h2 : ¬ (r ≤ w * 60) := by omega
    exact ⟨by simp [nextSleep, h2], by simp [nextSleep, h2]⟩
  · have h600 : ((600 : Int) ≤ 30 * 60) := by norm_num
    simp [nextSleep, h600, e1]
  · have h40 : ((40 : Int) ≤ 30 * 60) := by norm_num
    simp [nextSleep, h40, e2]

/-- C2 witness: the theorem applied at Scenario 2's inputs. -/
theorem C2_next_sleep_formula_witness :
    ((600 : Int) ≤ 30 * 60 →
      nextSleep 600 180 60 30 = min 60 (max 15 (Int.ediv 600 4))) ∧
    ((30 : Int) * 60 < 600 →
      nextSleep 600 180 60 30 = max 15 180 ∧
      nextSleep 600 180 60 30 = nextSleep 600 180 90 30) ∧
    nextSleep 600 180 60 30 = 60 ∧
    nextSleep 40 180 60 30 = 15 :=
  C2_next_sleep_formula 600 180 60 30 90 (by decide) (by decide)
    (by decide) (by decide) (by decide)

/-- C3 counterexample: `compute_wake_time` itself invokes the ETA
collaborator — with all of the claim's declared inputs (deadline, prep,
buffer, now, reference offset) equal, two environments whose provider
answers differ produce different snapshots, and one call performs one
provider invocation. -/
theorem C3_compute_invokes_provider :
    envProviderA.now = envProviderB.now ∧
    envProviderA.tzOffMin = envProviderB.tzOffMin ∧
    compute_wake_time envProviderA "2025-08-09T15:30:00+03:00" 15 60
        "a" "b" ≠
      compute_wake_time envProviderB "2025-08-09T15:30:00+03:00" 15 60
        "a" "b" ∧
    computeEtaCalls envProviderA "2025-08-09T15:30:00+03:00" = 1 := by
  have hA : compute_wake_time envProviderA "2025-08-09T15:30:00+03:00"
      15 60 "a" "b" =
      .ok { now := 0, arrival := 1754742600, eta_seconds := 3600,
            depart_latest := 1754735400, wake_time := 1754734500,
            wake_now := false } := by rfl
  have hB : compute_wake_time envProviderB "2025-08-09T15:30:00+03:00"
      15 60 "a" "b" =
      .ok { now := 0, arrival := 1754742600, eta_seconds := 7200,
            depart_latest := 1754731800, wake_time := 1754730900,
            wake_now := false } := by rfl
  refine ⟨rfl, rfl, ?_, by decide⟩
  rw [hA, hB]
  simp only [ne_eq, Except.ok.injEq]
  intro h
  exact absurd (congrArg Snapshot.eta_seconds h) (by decide)

/-- C3 amended: `compute_wake_time` fetches the ETA sample itself (one
provider invocation per call) and samples the clock; relative to those
collaborator responses it is deterministic — equal parsed deadline,
prep, buffer, provider answer and clock reading give equal results. -/
theorem C3_compute_deterministic_given_collaborators
    (e1 e2 : EtaEnv) (s1 s2 : String) (p b : Int)
    (o1 d1 o2 d2 : String)
    (hp : parseArrival e1.tzOffMin s1 = parseArrival e2.tzOffMin s2)
    (he : e1.eta o1 d1 = e2.eta o2 d2)
    (hn : e1.now = e2.now) :
    compute_wake_time e1 s1 p b o1 d1 =
      compute_wake_time e2 s2 p b o2 d2 := by
  unfold compute_wake_time
  simp only [hp, he, hn]

/-- C3 witness: determinism instantiated at Scenario 1's inputs. -/
theorem C3_compute_deterministic_given_collaborators_witness :
    compute_wake_time envProviderA "2025-08-09T15:30:00+03:00" 15 60
        "a" "b" =
      compute_wake_time envProviderA "2025-08-09T15:30:00+03:00" 15 60
        "x" "y" :=
  C3_compute_deterministic_given_collaborators envProviderA envProviderA
    "2025-08-09T15:30:00+03:00" "2025-08-09T15:30:00+03:00" 15 60
    "a" "b" "x" "y" rfl rfl rfl

/-- C7 counterexample: with `fine_poll = 10 < 15` and
`remaining = 100` inside the 30-minute fine window, the scheduler
returns 10, which is not in the claimed interval `[15, fine_poll]`. -/
theorem C7_lower_bound_fails_for_small_fine_poll :
    (100 : Int) ≤ 30 * 60 ∧
    nextSleep 100 180 10 30 = 10 ∧
    ¬ (15 ≤ nextSleep 100 180 10 30) := by
  refine ⟨by norm_num, ?_, ?_⟩ <;> decide

/-- C7 amended: within the fine window the scheduler is monotonically
non-decreasing in `remaining_seconds`, and its value lies in
`[min 15 fine_poll, fine_poll]`; in particular it lies in
`[15, fine_poll]` whenever `fine_poll ≥ 15`. -/
theorem C7_fine_window_monotone_bounded (r1 r2 c f w : Int)
    (h0 : 0 ≤ r1) (h12 : r1 ≤ r2) (hw : r2 ≤ w * 60) :
    nextSleep r1 c f w ≤ nextSleep r2 c f w ∧
    min 15 f ≤ nextSleep r1 c f w ∧
    nextSleep r1 c f w ≤ f ∧
    (15 ≤ f → 15 ≤ nextSleep r1 c f w) := by
  have hw1 : r1 ≤ w * 60 := le_trans h12 hw
  have hdiv : Int.ediv r1 4 ≤ Int.ediv r2 4 :=
    Int.ediv_le_ediv (by norm_num) h12
  refine ⟨?_, ?_, ?_, ?_⟩
  · simp only [nextSleep, if_pos hw1, if_pos hw]
    exact min_le_min le_rfl (max_le_max le_rfl hdiv)
  · simp only [nextSleep, if_pos hw1]
    exact min_le_min (le_max_left 15 (Int.ediv r1 4)) le_rfl |>.trans
      (le_of_eq (min_comm _ _))
  · simp only [nextSleep, if_pos hw1]
    exact min_le_left f _
  · intro hf
    simp only [nextSleep, if_pos hw1]
    exact le_min hf (le_max_left _ _)

/-- C7 witness: the amended theorem at Scenario 2/3 inputs. -/
theorem C7_fine_window_monotone_bounded_witness :
    nextSleep 40 180 60 30 ≤ nextSleep 600 180 60 30 ∧
    min 15 60 ≤ nextSleep 40 180 60 30 ∧
    nextSleep 40 180 60 30 ≤ 60 ∧
    ((15 : Int) ≤ 60 → 15 ≤ nextSleep 40 180 60 30) :=
  C7_fine_window_monotone_bounded 40 600 180 60 30 (by decide)
    (by decide) (by decide)

/-- C4 counterexample: a configuration whose arrival deadline is
unparseable but whose numeric fields are valid is not rejected by
`_start_program` — the worker starts and the state becomes Running. -/
theorem C4_unparseable_deadline_still_starts :
    parseArrival 180 (pyStrip cfgBadArrival.arrivalIso) = none ∧
    startProgram cfgBadArrival =
      { outcome := .started, state := .Running, workerStarted := true } := by
  exact ⟨by decide, by decide⟩

/-- C4 amended: invalid numeric fields fail synchronously with the
InvalidInput box, no worker starts and the state stays Idle; an
unparseable deadline is not checked at start — once the worker runs,
each poll absorbs the parse failure as a logged API error and schedules
a retry after `max(15, coarse_poll)`, continuing the loop. -/
theorem C4_start_validation (cfg : AppConfig) (wcfg : WorkerCfg)
    (env : WorkerEnv) (w : WorkerState)
    (hstop : env.stopProgram = false)
    (hdue : w.nextPollAt ≤ env.t0) :
    ((parsePyInt cfg.prepMin = none ∨ parsePyInt cfg.bufferMin = none ∨
      parsePyInt cfg.coarsePoll = none ∨ parsePyInt cfg.finePoll = none ∨
      parsePyInt cfg.fineWindow = none) →
      startProgram cfg =
        { outcome := .invalidInput, state := .Idle,
          workerStarted := false }) ∧
    (parseArrival wcfg.tzOffMin wcfg.arrival_iso = none →
      workerStep wcfg env w =
        { st := { w with
            nextPollAt := env.t1 + max 15 wcfg.coarse_poll_s },
          logs := [.apiError "invalid isoformat string"],
          kind := .continueLoop }) := by
  constructor
  · intro hbad
    cases h1 : parsePyInt cfg.prepMin <;>
      cases h2 : parsePyInt cfg.bufferMin <;>
      cases h3 : parsePyInt cfg.coarsePoll <;>
      cases h4 : parsePyInt cfg.finePoll <;>
      cases h5 : parsePyInt cfg.fineWindow <;>
      simp_all [startProgram]
  · intro hnone
    have hc : compute_wake_time (etaEnvOf wcfg env) wcfg.arrival_iso
        wcfg.prep_min wcfg.buffer_min wcfg.origin wcfg.destination =
        .error "invalid isoformat string" := by
      unfold compute_wake_time
      have htz : (etaEnvOf wcfg env).tzOffMin = wcfg.tzOffMin := rfl
      rw [htz, hnone]
    have hlt : ¬ (env.t0 < w.nextPollAt) := by omega
    simp [workerStep, hstop, hlt, hc]

/-- C4 witness: a concrete bad-numeric configuration and a concrete
worker iteration over an unparseable deadline. -/
theorem C4_start_validation_witness :
    ((parsePyInt cfgBadNumeric.prepMin = none ∨
      parsePyInt cfgBadNumeric.bufferMin = none ∨
      parsePyInt cfgBadNumeric.coarsePoll = none ∨
      parsePyInt cfgBadNumeric.finePoll = none ∨
      parsePyInt cfgBadNumeric.fineWindow = none) →
      startProgram cfgBadNumeric =
        { outcome := .invalidInput, state := .Idle,
          workerStarted := false }) ∧
    (parseArrival wcfgBadArrival.tzOffMin wcfgBadArrival.arrival_iso =
        none →
      workerStep wcfgBadArrival envLog1 wInit =
        { st := { wInit with
                    nextPollAt :=
                      envLog1.t1 + max 15 wcfgBadArrival.coarse_poll_s },
          logs := [.apiError "invalid isoformat string"],
          kind := .continueLoop }) :=
  C4_start_validation cfgBadNumeric wcfgBadArrival envLog1 wInit
    (by decide) (by decide)

/-- C5: a worker iteration whose ETA fetch fails does not abort the
run: the error is logged, the program state is untouched, the loop
continues, and the next poll is scheduled exactly
`max(15, coarse_poll)` seconds after the post-failure clock sample —
hence no sooner than `coarse_poll` seconds when `coarse_poll ≥ 15`. -/
theorem C5_eta_failure_is_absorbed (cfg : WorkerCfg) (env : WorkerEnv)
    (w : WorkerState) (a : Int) (msg : String)
    (hstop : env.stopProgram = false)
    (hdue : w.nextPollAt ≤ env.t0)
    (hparse : parseArrival cfg.tzOffMin cfg.arrival_iso = some a)
    (heta : env.eta = .error msg) :
    workerStep cfg env w =
      { st := { w with nextPollAt := env.t1 + max 15 cfg.coarse_poll_s },
        logs := [.apiError msg], kind := .continueLoop } ∧
    (workerStep cfg env w).st.progState = w.progState ∧
    (workerStep cfg env w).kind = .continueLoop ∧
    (15 ≤ cfg.coarse_poll_s →
      env.t1 + cfg.coarse_poll_s ≤ (workerStep cfg env w).st.nextPollAt) := by
  have hc : compute_wake_time (etaEnvOf cfg env) cfg.arrival_iso
      cfg.prep_min cfg.buffer_min cfg.origin cfg.destination =
      .error msg := by
    unfold compute_wake_time
    have htz : (etaEnvOf cfg env).tzOffMin = cfg.tzOffMin := rfl
    have hee : (etaEnvOf cfg env).eta cfg.origin cfg.destination =
      env.eta := rfl
    rw [htz, hparse, hee, heta]
  have hlt : ¬ (env.t0 < w.nextPollAt) := by omega
  have hmain : workerStep cfg env w =
      { st := { w with nextPollAt := env.t1 + max 15 cfg.coarse_poll_s },
        logs := [.apiError msg], kind := .continueLoop } := by
    simp [workerStep, hstop, hlt, hc]
  refine ⟨hmain, by rw [hmain], by rw [hmain], ?_⟩
  intro h15
  rw [hmain]
  have : max 15 cfg.coarse_poll_s = cfg.coarse_poll_s :=
    max_eq_right h15
  simp [this]

/-- C5 witness: a concrete failing poll. -/
theorem C5_eta_failure_is_absorbed_witness :
    workerStep cfgLogDemo envBoom wInit =
      { st := { wInit with
                  nextPollAt :=
                    envBoom.t1 + max 15 cfgLogDemo.coarse_poll_s },
        logs := [.apiError "boom"], kind := .continueLoop } ∧
    (workerStep cfgLogDemo envBoom wInit).st.progState =
      wInit.progState ∧
    (workerStep cfgLogDemo envBoom wInit).kind =
      StepKind.continueLoop ∧
    ((15 : Int) ≤ cfgLogDemo.coarse_poll_s →
      envBoom.t1 + cfgLogDemo.coarse_poll_s ≤
        (workerStep cfgLogDemo envBoom wInit).st.nextPollAt) :=
  C5_eta_failure_is_absorbed cfgLogDemo envBoom wInit 1754742600 "boom"
    (by decide) (by decide) (by decide) rfl

/-- C8 counterexample: two consecutive successful worker polls with an
identical wake time both emit the ETA log line — the GUI worker does
not suppress the unchanged-wake-time line. -/
theorem C8_app_logs_despite_unchanged_wake :
    workerStep cfgLogDemo envLog1
        { nextPollAt := 0, progState := .Running } =
      { st := { nextPollAt := 1754000180, progState := .Running },
        logs := [.etaLine 60 1754735400 1754734500, .nextPollIn 180],
        kind := .continueLoop } ∧
    workerStep cfgLogDemo envLog2
        { nextPollAt := 1754000180, progState := .Running } =
      { st := { nextPollAt := 1754000360, progState := .Running },
        logs := [.etaLine 60 1754735400 1754734500, .nextPollIn 180],
        kind := .continueLoop } := by
  exact ⟨by decide, by decide⟩

/-- C8 amended: in `run_alarm`'s loop the status line is emitted iff
the computed wake time differs from the previous iteration's
(`last_wake_iso`); in the GUI worker `_run_worker`, every successful
poll emits the ETA line unconditionally. -/
theorem C8_logging_rules (cfg : WorkerCfg) (envC : CoreEnv)
    (lw : Option Int) (out : CoreIterOut) (envW : WorkerEnv)
    (w : WorkerState) (info : Snapshot)
    (hcore : runAlarmIter cfg envC lw = .ok out)
    (hstop : envW.stopProgram = false)
    (hdue : w.nextPollAt ≤ envW.t0)
    (hcomp : compute_wake_time (etaEnvOf cfg envW) cfg.arrival_iso
      cfg.prep_min cfg.buffer_min cfg.origin cfg.destination =
      .ok info) :
    (out.logged = true ↔ some out.wake ≠ lw) ∧
    (workerStep cfg envW w).logs =
      .etaLine (max 0 (Int.ediv info.eta_seconds 60)) info.depart_latest
          info.wake_time ::
        (if envW.nowCheck ≥ info.wake_time then [.triggering]
         else [.nextPollIn (nextSleep (info.wake_time - envW.nowCheck)
           cfg.coarse_poll_s cfg.fine_poll_s cfg.fine_window_min)]) := by
  constructor
  · unfold runAlarmIter at hcore
    cases hcc : compute_wake_time
        { eta := fun _ _ => envC.eta, now := envC.nowCompute,
          tzOffMin := cfg.tzOffMin }
        cfg.arrival_iso cfg.prep_min cfg.buffer_min cfg.origin
        cfg.destination with
    | error e => rw [hcc] at hcore; exact absurd hcore (by simp)
    | ok i =>
      rw [hcc] at hcore
      simp only at hcore
      split at hcore <;>
        (injection hcore with h; subst h; simp)
  · have hlt : ¬ (envW.t0 < w.nextPollAt) := by omega
    by_cases hring : envW.nowCheck ≥ info.wake_time <;>
      simp [workerStep, hstop, hlt, hcomp, hring]

/-- C8 witness: the logging rules at a concrete successful poll. -/
theorem C8_logging_rules_witness :
    (outLog1.logged = true ↔ some outLog1.wake ≠ (none : Option Int)) ∧
    (workerStep cfgLogDemo envLog1 wInit).logs =
      .etaLine (max 0 (Int.ediv snapLog1.eta_seconds 60))
          snapLog1.depart_latest snapLog1.wake_time ::
        (if envLog1.nowCheck ≥ snapLog1.wake_time then [.triggering]
         else [.nextPollIn
           (nextSleep (snapLog1.wake_time - envLog1.nowCheck)
             cfgLogDemo.coarse_poll_s cfgLogDemo.fine_poll_s
             cfgLogDemo.fine_window_min)]) :=
  C8_logging_rules cfgLogDemo envCoreLog1 none outLog1 envLog1 wInit
    snapLog1 rfl (by decide) (by decide) rfl

/-- C9: a command issued in a state whose button dispatch does not
select it is a no-op; start changes the state only from Idle,
stop-program only from Running, stop-alarm only from Ringing, and no
command is fatal (the handler is a total function). -/
theorem C9_invalid_commands_ignored (vo : Bool) (c : Cmd)
    (s : ProgState) :
    (handleCommand vo c s ≠ s → buttonAction s = c) ∧
    (handleCommand vo .start s ≠ s → s = .Idle) ∧
    (handleCommand vo .stopProgram s ≠ s → s = .Running) ∧
    (handleCommand vo .stopAlarm s ≠ s → s = .Ringing) := by
  cases vo <;> cases c <;> cases s <;> decide

/-- C9 witness: stop-alarm issued while Running is ignored. -/
theorem C9_invalid_commands_ignored_witness :
    (handleCommand true .stopAlarm .Running ≠ .Running →
      buttonAction .Running = .stopAlarm) ∧
    (handleCommand true .start .Running ≠ .Running →
      ProgState.Running = .Idle) ∧
    (handleCommand true .stopProgram .Running ≠ .Running →
      ProgState.Running = .Running) ∧
    (handleCommand true .stopAlarm .Running ≠ .Running →
      ProgState.Running = .Ringing) :=
  C9_invalid_commands_ignored true .stopAlarm .Running

/-! ### Alarm-episode helper lemmas -/

/-- The episode starts at most as many playbacks as its remaining
budget. -/
theorem ringLoop_le (env : RingEnv) :
    ∀ k i t, ringLoop env k i t ≤ k := by
  intro k
  induction k with
  | zero => intro i t; simp [ringLoop]
  | succ n ih =>
    intro i t
    unfold ringLoop
    cases h : env.latch t with
    | true => simp
    | false =>
      cases hp : env.plays i with
      | ok d =>
        simp only [Bool.false_eq_true, if_false]
        have := ih (i + 1) (playPoll env.latch d (t + 1)).1
        omega
      | notFound => simp
      | failed => simp

/-- A top-of-loop check made while the latch is set starts no playback
at all. -/
theorem ringLoop_latch_zero (env : RingEnv) (k i t : Nat)
    (h : env.latch t = true) : ringLoop env k i t = 0 := by
  cases k <;> simp [ringLoop, h]

/-- If the latch becomes set at observation `t0` inside the polling
window of an active playback, the inner while-loop terminates the
playback (it reports a latch stop). -/
theorem playPoll_stopped (latch : Nat → Bool) (t0 : Nat)
    (h0 : latch t0 = true) :
    ∀ d t, t ≤ t0 → t0 < t + d → (playPoll latch d t).2 = true := by
  intro d
  induction d with
  | zero => intro t h1 h2; exact absurd h1 (by omega)
  | succ n ih =>
    intro t h1 h2
    simp only [playPoll]
    cases h : latch t with
    | true => simp
    | false =>
      have hne : t ≠ t0 := by
        intro he; rw [he, h0] at h; exact Bool.noConfusion h
      simp only [Bool.false_eq_true, if_false]
      exact ih (t + 1) (by omega) (by omega)

/-- C6: an alarm episode starts at most 10 playbacks and always ends
with the state set to Idle; moreover, once the stop latch is set (at
observation `t0`), an active playback whose polling window covers `t0`
is terminated, and any repetition whose top-of-loop check happens at or
after `t0` never starts — no playback begins after the stop request. -/
theorem C6_alarm_budget_and_stop (env : RingEnv) (k i u d t t0 : Nat)
    (hmono : LatchMono env.latch)
    (hset : env.latch t0 = true)
    (hwin1 : t ≤ t0) (hwin2 : t0 < t + d)
    (hu : t0 ≤ u) :
    (ring_alarm_gui env).playbacks ≤ 10 ∧
    (ring_alarm_gui env).finalState = .Idle ∧
    (playPoll env.latch d t).2 = true ∧
    ringLoop env k i u = 0 := by
  refine ⟨?_, ?_, ?_, ?_⟩
  · cases hs : env.soundValid <;>
      simp [ring_alarm_gui, hs, ringLoop_le]
  · cases hs : env.soundValid <;> simp [ring_alarm_gui, hs]
  · exact playPoll_stopped env.latch t0 hset d t hwin1 hwin2
  · exact ringLoop_latch_zero env k i u (hmono t0 u hu hset)

/-- C6 witness: latch set at the third observation, five-poll
playbacks. -/
theorem C6_alarm_budget_and_stop_witness :
    (ring_alarm_gui envRing).playbacks ≤ 10 ∧
    (ring_alarm_gui envRing).finalState = .Idle ∧
    (playPoll envRing.latch 4 1).2 = true ∧
    ringLoop envRing 7 3 7 = 0 :=
  C6_alarm_budget_and_stop envRing 7 3 7 4 1 3
    (by intro s u hsu hs; simp [envRing] at hs ⊢; omega)
    (by decide) (by decide) (by decide) (by decide)

/-- C10: if the stop latch is already set when an episode with a valid
sound starts, the for-loop exits before any playback is launched, the
playback handle is cleared and the state ends Idle. -/
theorem C10_preset_latch_zero_playbacks (env : RingEnv)
    (hsound : env.soundValid = true) (h0 : env.latch 0 = true) :
    (ring_alarm_gui env).playbacks = 0 ∧
    (ring_alarm_gui env).procCleared = true ∧
    (ring_alarm_gui env).finalState = .Idle := by
  have hz := ringLoop_latch_zero env 10 0 0 h0
  simp [ring_alarm_gui, hsound, hz]

/-- C10 witness: the always-set latch environment. -/
theorem C10_preset_latch_zero_playbacks_witness :
    (ring_alarm_gui envRingPre).playbacks = 0 ∧
    (ring_alarm_gui envRingPre).procCleared = true ∧
    (ring_alarm_gui envRingPre).finalState = .Idle :=
  C10_preset_latch_zero_playbacks envRingPre rfl rfl

end SmartAlarm
